import Mathlib

/-!
Verification of the routing and propagation engine of the telers dispatcher
(src/src/dispatcher/router.rs), shallowly embedded in Lean.

Conventions of the embedding:
* Machinery that is hidden from the router (the bot handle, the inbound update,
  the context store, handler response payloads, error values) is modelled by
  identifiers (Nat); the router only passes these values around and compares
  them by identity, which Nat equality captures.
* Asynchronous calls are modelled as pure functions returning Except: the
  router awaits every call in sequence, so the propagation of one update is a
  sequential computation; an Err result models a Rust Err propagated with the
  question-mark operator.
* Middleware and handler closures are modelled as Lean functions kept as data
  inside observer structures.
-/

/-- Identifier of a telegram handler Response payload (hidden from the router). -/
abbrev HandlerResponseId := Nat

/-- AppErrorKind, the error type surfaced by propagation (hidden from the router). -/
abbrev Err := Nat

/-- Error type of simple (startup and shutdown) observers (hidden from the router). -/
abbrev SErr := Nat

/-- Request bundle from router.rs: bot, update and context, each behind an Arc.
Equality in the source is Arc pointer equality; here, identity of the three ids. -/
structure Request where
  bot : Nat
  update : Nat
  context : Nat
deriving DecidableEq, Repr

/-- EventReturn from dispatcher/event/bases.rs: Skip, Cancel or Finish (default). -/
inductive EventReturn : Type where
  | skip
  | cancel
  | finish
deriving DecidableEq, Repr

/-- PropagateEventResult from dispatcher/event/bases.rs: Rejected, Unhandled or
Handled carrying a handler Response (modelled by its identifier). -/
inductive PropagateEventResult : Type where
  | rejected
  | unhandled
  | handled (response : HandlerResponseId)
deriving DecidableEq, Repr

/-- Router-level Response from router.rs: the request together with the
propagation result. -/
structure Response where
  request : Request
  propagate_result : PropagateEventResult
deriving DecidableEq, Repr

/-- Outer middleware capability: call(request) returns a possibly updated
request together with an EventReturn, or an error. -/
abbrev OuterMiddleware := Request → Except Err (Request × EventReturn)

/-- Inner middleware registration entry (an identifier): claims about the
builder only compare which entries appear in which order. -/
abbrev InnerMiddlewareId := Nat

/-- Outer middleware registration entry in the builder model (an identifier). -/
abbrev OuterMiddlewareId := Nat

/-- Handler registration entry (an identifier). -/
abbrev HandlerId := Nat

/-- The fourteen known update kinds, as enumerated by the match arms of
RouterInner::telegram_observer_by_update_type in router.rs. -/
inductive UpdateType : Type where
  | message
  | edited_message
  | channel_post
  | edited_channel_post
  | inline_query
  | chosen_inline_result
  | callback_query
  | shipping_query
  | pre_checkout_query
  | poll
  | poll_answer
  | my_chat_member
  | chat_member
  | chat_join_request
deriving DecidableEq, Repr, Fintype

/-- Selector for the fifteen telegram observer fields of a router: the fourteen
kind observers plus the generic update observer. -/
inductive TObsSel : Type where
  | message
  | edited_message
  | channel_post
  | edited_channel_post
  | inline_query
  | chosen_inline_result
  | callback_query
  | shipping_query
  | pre_checkout_query
  | poll
  | poll_answer
  | my_chat_member
  | chat_member
  | chat_join_request
  | update
deriving DecidableEq, Repr, Fintype

/-- The observer field selected for each update kind, following the match of
RouterInner::telegram_observer_by_update_type. -/
def selOfKind : UpdateType → TObsSel
  | .message => .message
  | .edited_message => .edited_message
  | .channel_post => .channel_post
  | .edited_channel_post => .edited_channel_post
  | .inline_query => .inline_query
  | .chosen_inline_result => .chosen_inline_result
  | .callback_query => .callback_query
  | .shipping_query => .shipping_query
  | .pre_checkout_query => .pre_checkout_query
  | .poll => .poll
  | .poll_answer => .poll_answer
  | .my_chat_member => .my_chat_member
  | .chat_member => .chat_member
  | .chat_join_request => .chat_join_request

/-- Modelled from the spec: the conversion TryInto from an observer event name
to an UpdateType (crate enums, update_type.rs, not among the provided sources).
The fourteen known kind names convert to their kind; every other name,
in particular the name of the generic update observer, fails to convert. -/
def eventNameToUpdateType (name : String) : Option UpdateType :=
  if name = "message" then some .message
  else if name = "edited_message" then some .edited_message
  else if name = "channel_post" then some .channel_post
  else if name = "edited_channel_post" then some .edited_channel_post
  else if name = "inline_query" then some .inline_query
  else if name = "chosen_inline_result" then some .chosen_inline_result
  else if name = "callback_query" then some .callback_query
  else if name = "shipping_query" then some .shipping_query
  else if name = "pre_checkout_query" then some .pre_checkout_query
  else if name = "poll" then some .poll
  else if name = "poll_answer" then some .poll_answer
  else if name = "my_chat_member" then some .my_chat_member
  else if name = "chat_member" then some .chat_member
  else if name = "chat_join_request" then some .chat_join_request
  else none

/-- The fifteen telegram observer fields of a router, generic over the observer
representation (builder observers and service observers share this shape). -/
structure Observers (α : Type) where
  message : α
  edited_message : α
  channel_post : α
  edited_channel_post : α
  inline_query : α
  chosen_inline_result : α
  callback_query : α
  shipping_query : α
  pre_checkout_query : α
  poll : α
  poll_answer : α
  my_chat_member : α
  chat_member : α
  chat_join_request : α
  update : α

/-- Field access by selector. -/
def Observers.sel (o : Observers α) : TObsSel → α
  | .message => o.message
  | .edited_message => o.edited_message
  | .channel_post => o.channel_post
  | .edited_channel_post => o.edited_channel_post
  | .inline_query => o.inline_query
  | .chosen_inline_result => o.chosen_inline_result
  | .callback_query => o.callback_query
  | .shipping_query => o.shipping_query
  | .pre_checkout_query => o.pre_checkout_query
  | .poll => o.poll
  | .poll_answer => o.poll_answer
  | .my_chat_member => o.my_chat_member
  | .chat_member => o.chat_member
  | .chat_join_request => o.chat_join_request
  | .update => o.update

/-- Apply a binary operation field by field, as the register_middlewares blocks
in router.rs do observer by observer. -/
def Observers.zipWith (f : α → β → γ) (a : Observers α) (b : Observers β) :
    Observers γ :=
  ⟨f a.message b.message, f a.edited_message b.edited_message,
   f a.channel_post b.channel_post, f a.edited_channel_post b.edited_channel_post,
   f a.inline_query b.inline_query, f a.chosen_inline_result b.chosen_inline_result,
   f a.callback_query b.callback_query, f a.shipping_query b.shipping_query,
   f a.pre_checkout_query b.pre_checkout_query, f a.poll b.poll,
   f a.poll_answer b.poll_answer, f a.my_chat_member b.my_chat_member,
   f a.chat_member b.chat_member, f a.chat_join_request b.chat_join_request,
   f a.update b.update⟩

/-- The list built by Router::telegram_observers in router.rs: the fourteen kind
observers in declaration order, then the generic update observer, each paired
with the event name given to it by Router::new. The names themselves are
modelled from the spec (crate enums, observer_name.rs, not among the provided
sources): each kind observer carries the name of its kind and the generic
observer carries the name update. -/
def observerNameList (o : Observers α) : List (String × α) :=
  [("message", o.message), ("edited_message", o.edited_message),
   ("channel_post", o.channel_post), ("edited_channel_post", o.edited_channel_post),
   ("inline_query", o.inline_query), ("chosen_inline_result", o.chosen_inline_result),
   ("callback_query", o.callback_query), ("shipping_query", o.shipping_query),
   ("pre_checkout_query", o.pre_checkout_query), ("poll", o.poll),
   ("poll_answer", o.poll_answer), ("my_chat_member", o.my_chat_member),
   ("chat_member", o.chat_member), ("chat_join_request", o.chat_join_request),
   ("update", o.update)]

/-- Service form of a telegram observer as consumed by router.rs: the router
reads its outer middleware chain and invokes its trigger. The trigger algorithm
itself (filters, inner middlewares, handlers) lives in the observer module,
outside the sources modelled here, so it is kept as an abstract function from
the request to the propagation result of the observer. -/
structure TelegramObserverInner where
  outer_middlewares : List OuterMiddleware
  trigger : Request → Except Err PropagateEventResult

deriving instance DecidableEq for Except

/-- Service form of a simple (startup or shutdown) observer: its trigger takes
unit and returns a SimpleHandlerResult, modelled by the Except value the
trigger call produces. -/
structure SimpleObserverInner where
  trigger : Except SErr Unit
deriving DecidableEq

/-- RouterInner from router.rs: the immutable service form of a router, with
its fifteen telegram observers, the startup and shutdown observers and the
ordered list of sub routers. -/
inductive RouterInner : Type where
  | mk (router_name : String) (obs : Observers TelegramObserverInner)
       (startup shutdown : SimpleObserverInner)
       (sub_routers : List RouterInner)

def RouterInner.router_name : RouterInner → String
  | .mk n _ _ _ _ => n

def RouterInner.obs : RouterInner → Observers TelegramObserverInner
  | .mk _ o _ _ _ => o

def RouterInner.startup : RouterInner → SimpleObserverInner
  | .mk _ _ st _ _ => st

def RouterInner.shutdown : RouterInner → SimpleObserverInner
  | .mk _ _ _ sd _ => sd

def RouterInner.sub_routers : RouterInner → List RouterInner
  | .mk _ _ _ _ subs => subs

/-- RouterInner::telegram_observer_by_update_type: the total match from each of
the fourteen update kinds to one telegram observer field. -/
def RouterInner.telegram_observer_by_update_type (r : RouterInner) :
    UpdateType → TelegramObserverInner
  | .message => r.obs.message
  | .edited_message => r.obs.edited_message
  | .channel_post => r.obs.channel_post
  | .edited_channel_post => r.obs.edited_channel_post
  | .inline_query => r.obs.inline_query
  | .chosen_inline_result => r.obs.chosen_inline_result
  | .callback_query => r.obs.callback_query
  | .shipping_query => r.obs.shipping_query
  | .pre_checkout_query => r.obs.pre_checkout_query
  | .poll => r.obs.poll
  | .poll_answer => r.obs.poll_answer
  | .my_chat_member => r.obs.my_chat_member
  | .chat_member => r.obs.chat_member
  | .chat_join_request => r.obs.chat_join_request

/-- Outcome of one outer middleware loop: either some middleware returned
Cancel (carrying the request current at that point), or the loop ran through
(carrying the final, possibly updated request). -/
inductive OuterLoopResult : Type where
  | cancelled (request : Request)
  | finished (request : Request)
deriving DecidableEq, Repr

/-- The outer middleware loop shared by propagate_event and
propagate_update_event in router.rs: each middleware is called on the current
request; Finish replaces the request with the updated one, Skip discards the
updated request and keeps the current one, Cancel stops the loop returning the
current request, and an error aborts the whole propagation. -/
def run_outer_middlewares : List OuterMiddleware → Request →
    Except Err OuterLoopResult
  | [], request => .ok (.finished request)
  | middleware :: rest, request =>
    match middleware request with
    | .error e => .error e
    | .ok (updated_request, .finish) => run_outer_middlewares rest updated_request
    | .ok (_, .skip) => run_outer_middlewares rest request
    | .ok (_, .cancel) => .ok (.cancelled request)

mutual

/-- RouterInner::propagate_update_event: run the outer middlewares of the
update observer, then (inlined propagate_update_event_by_observer) trigger the
update observer and, if it is unhandled, propagate to the sub routers. -/
def RouterInner.propagate_update_event : RouterInner → Request →
    Except Err Response
  | .mk _ o _ _ subs, request =>
    match run_outer_middlewares o.update.outer_middlewares request with
    | .error e => .error e
    | .ok (.cancelled req) => .ok ⟨req, .rejected⟩
    | .ok (.finished req) =>
      match o.update.trigger req with
      | .error e => .error e
      | .ok (.handled response) => .ok ⟨req, .handled response⟩
      | .ok .rejected => .ok ⟨req, .unhandled⟩
      | .ok .unhandled => propagate_update_event_sub_routers subs req

/-- The sub router loop of propagate_update_event_by_observer: try each sub
router in order; continue past Unhandled, return the first Handled or Rejected
response, and fall through to Unhandled with the router-level request. -/
def propagate_update_event_sub_routers : List RouterInner → Request →
    Except Err Response
  | [], request => .ok ⟨request, .unhandled⟩
  | router :: rest, request =>
    match router.propagate_update_event request with
    | .error e => .error e
    | .ok router_response =>
      match router_response.propagate_result with
      | .unhandled => propagate_update_event_sub_routers rest request
      | _ => .ok router_response

end

mutual

/-- RouterInner::propagate_event: first invoke propagate_update_event,
propagating only its errors (its Response is dropped); then run the outer
middlewares of the observer selected by the update type on the original
request; then (inlined propagate_event_by_observer) trigger that observer and,
if it is unhandled, propagate to the sub routers. -/
def RouterInner.propagate_event : RouterInner → UpdateType → Request →
    Except Err Response
  | r@(.mk _ _ _ _ subs), update_type, request =>
    match r.propagate_update_event request with
    | .error e => .error e
    | .ok _ =>
      match run_outer_middlewares
          (r.telegram_observer_by_update_type update_type).outer_middlewares
          request with
      | .error e => .error e
      | .ok (.cancelled req) => .ok ⟨req, .rejected⟩
      | .ok (.finished req) =>
        match (r.telegram_observer_by_update_type update_type).trigger req with
        | .error e => .error e
        | .ok (.handled response) => .ok ⟨req, .handled response⟩
        | .ok .rejected => .ok ⟨req, .unhandled⟩
        | .ok .unhandled => propagate_event_sub_routers subs update_type req

/-- The sub router loop of propagate_event_by_observer: try each sub router in
order; continue past Unhandled, return the first Handled or Rejected response,
and fall through to Unhandled with the router-level request. -/
def propagate_event_sub_routers : List RouterInner → UpdateType → Request →
    Except Err Response
  | [], _, request => .ok ⟨request, .unhandled⟩
  | router :: rest, update_type, request =>
    match router.propagate_event update_type request with
    | .error e => .error e
    | .ok router_response =>
      match router_response.propagate_result with
      | .unhandled => propagate_event_sub_routers rest update_type request
      | _ => .ok router_response

end

/-- RouterInner::propagate_update_event_by_observer, as a function of the parts
of the router it reads: trigger the update observer; Handled is returned with
the router-level request, Rejected becomes an Unhandled response, and Unhandled
propagates to the sub routers. -/
def propagate_update_event_by_observer (upd : TelegramObserverInner)
    (sub_routers : List RouterInner) (request : Request) :
    Except Err Response :=
  match upd.trigger request with
  | .error e => .error e
  | .ok (.handled response) => .ok ⟨request, .handled response⟩
  | .ok .rejected => .ok ⟨request, .unhandled⟩
  | .ok .unhandled => propagate_update_event_sub_routers sub_routers request

/-- RouterInner::propagate_event_by_observer, as a function of the parts of the
router it reads: trigger the selected observer; Handled is returned with the
router-level request, Rejected becomes an Unhandled response, and Unhandled
propagates to the sub routers. -/
def propagate_event_by_observer (observer : TelegramObserverInner)
    (sub_routers : List RouterInner) (update_type : UpdateType)
    (request : Request) : Except Err Response :=
  match observer.trigger request with
  | .error e => .error e
  | .ok (.handled response) => .ok ⟨request, .handled response⟩
  | .ok .rejected => .ok ⟨request, .unhandled⟩
  | .ok .unhandled => propagate_event_sub_routers sub_routers update_type request

/-- The tail of propagate_event after the update pass: the outer middleware
loop of the kind observer on the original request, then the kind observer
phase. -/
def propagate_event_kind_phase (r : RouterInner) (update_type : UpdateType)
    (request : Request) : Except Err Response :=
  match run_outer_middlewares
      (r.telegram_observer_by_update_type update_type).outer_middlewares
      request with
  | .error e => .error e
  | .ok (.cancelled req) => .ok ⟨req, .rejected⟩
  | .ok (.finished req) =>
    propagate_event_by_observer (r.telegram_observer_by_update_type update_type)
      r.sub_routers update_type req

/-- Trigger a sequence of simple observers in order, stopping at and returning
the first error. -/
def triggerAll : List SimpleObserverInner → Except SErr Unit
  | [] => .ok ()
  | observer :: rest =>
    match observer.trigger with
    | .error e => .error e
    | .ok _ => triggerAll rest

/-- RouterInner::emit_startup: trigger the startup observer of the router
itself, then the startup observer of each sub router in order, propagating the
first error. -/
def RouterInner.emit_startup (r : RouterInner) : Except SErr Unit :=
  triggerAll (r.startup :: r.sub_routers.map RouterInner.startup)

/-- RouterInner::emit_shutdown: trigger the shutdown observer of the router
itself, then the shutdown observer of each sub router in order, propagating the
first error. -/
def RouterInner.emit_shutdown (r : RouterInner) : Except SErr Unit :=
  triggerAll (r.shutdown :: r.sub_routers.map RouterInner.shutdown)

/-- Builder form of a telegram observer, as read by router.rs: its registered
handler entries and its two middleware chains, all kept as ordered lists of
registration entry identifiers. The event name is not stored here: Router::new
fixes one name per field, and observerNameList pairs each field with it. -/
structure TelegramObserver where
  handlers : List HandlerId
  inner_middlewares : List InnerMiddlewareId
  outer_middlewares : List OuterMiddlewareId
deriving DecidableEq, Repr

/-- Router from router.rs: the mutable builder form of a router, with its
fifteen telegram observers, startup and shutdown handler lists and the ordered
list of sub routers. -/
inductive Router : Type where
  | mk (router_name : String) (obs : Observers TelegramObserver)
       (startup_handlers shutdown_handlers : List HandlerId)
       (sub_routers : List Router)

def Router.router_name : Router → String
  | .mk n _ _ _ _ => n

def Router.obs : Router → Observers TelegramObserver
  | .mk _ o _ _ _ => o

def Router.startup_handlers : Router → List HandlerId
  | .mk _ _ st _ _ => st

def Router.shutdown_handlers : Router → List HandlerId
  | .mk _ _ _ sd _ => sd

def Router.sub_routers : Router → List Router
  | .mk _ _ _ _ subs => subs

/-- Modelled from the spec: Middlewares::register_at_position (middlewares
module, not among the provided sources); middleware chains are ordered and
keyed by position, and registration at a position inserts the entry at that
index of the chain. -/
def register_at_position : List α → Nat → α → List α
  | l, 0, m => m :: l
  | [], _ + 1, m => [m]
  | x :: l, i + 1, m => x :: register_at_position l i m

/-- The insertion loop of the register_middlewares blocks in router.rs: walk the
entries to inherit, inserting the first at the given index, the second at the
next index, and so on. -/
def registerFrom (i : Nat) (ms : List α) (l : List α) : List α :=
  match ms with
  | [] => l
  | m :: rest => registerFrom (i + 1) rest (register_at_position l i m)

/-- One observer step of Router::register_inner_middlewares: insert the inner
middlewares of the parent observer at the first positions of the child
observer. -/
def inheritInner (parent child : TelegramObserver) : TelegramObserver :=
  { child with
      inner_middlewares :=
        registerFrom 0 parent.inner_middlewares child.inner_middlewares }

mutual

/-- Router::register_inner_middlewares: for every telegram observer, insert the
inner middlewares of this router at the first positions of the matching
observer of the given router, then do the same (still with this router as the
source) for every sub router of that router. -/
def register_inner_middlewares (parentObs : Observers TelegramObserver) :
    Router → Router
  | .mk name o st sd subs =>
    .mk name (Observers.zipWith inheritInner parentObs o) st sd
      (register_inner_middlewares_subs parentObs subs)

/-- The sub router recursion of Router::register_inner_middlewares. -/
def register_inner_middlewares_subs (parentObs : Observers TelegramObserver) :
    List Router → List Router
  | [] => []
  | r :: rs =>
    register_inner_middlewares parentObs r ::
      register_inner_middlewares_subs parentObs rs

end

/-- Router::include_router: register the inner middlewares of this router in
the included router, then push it at the end of the sub router list. -/
def Router.include_router : Router → Router → Router
  | .mk name o st sd subs, router =>
    .mk name o st sd (subs ++ [register_inner_middlewares o router])

/-- The selector value of each observer field, for field surgery by selector. -/
def selTable : Observers TObsSel :=
  ⟨.message, .edited_message, .channel_post, .edited_channel_post,
   .inline_query, .chosen_inline_result, .callback_query, .shipping_query,
   .pre_checkout_query, .poll, .poll_answer, .my_chat_member, .chat_member,
   .chat_join_request, .update⟩

/-- Modelled from the spec: registering an inner middleware on an observer of a
router after construction (middleware chains are append-only at registration
time); the entry is appended at the end of the chain of the selected observer
of this router only. Used to state that registration on a parent after
inclusion does not reach an already included child. -/
def Router.registerInner (r : Router) (s : TObsSel) (m : InnerMiddlewareId) :
    Router :=
  match r with
  | .mk name o st sd subs =>
    .mk name
      (Observers.zipWith
        (fun pick obs =>
          if pick then
            { obs with inner_middlewares := obs.inner_middlewares ++ [m] }
          else obs)
        (Observers.zipWith (fun a _ => decide (a = s)) selTable o) o)
      st sd subs

mutual

/-- Descend in a router tree along a path of sub router indices. -/
def Router.subAt : Router → List Nat → Option Router
  | r, [] => some r
  | .mk _ _ _ _ subs, i :: is => subAtList subs i is

/-- Index selection step of Router.subAt. -/
def subAtList : List Router → Nat → List Nat → Option Router
  | [], _, _ => none
  | r :: _, 0, is => Router.subAt r is
  | _ :: rs, i + 1, is => subAtList rs i is

end

/-- OuterMiddlewaresConfig from router.rs: one outer middleware list per
telegram observer field. -/
abbrev OuterMiddlewaresConfig := Observers (List OuterMiddlewareId)

/-- OuterMiddlewaresConfig::clear: every one of the fifteen lists is cleared. -/
def OuterMiddlewaresConfig.clear (_ : OuterMiddlewaresConfig) :
    OuterMiddlewaresConfig :=
  ⟨[], [], [], [], [], [], [], [], [], [], [], [], [], [], []⟩

/-- Config from router.rs: the tree-wide build-time configuration, carrying the
outer middlewares to install. -/
structure Config where
  outer_middlewares : OuterMiddlewaresConfig

/-- The configuration with every outer middleware list cleared: what any
configuration becomes after OuterMiddlewaresConfig::clear, and what every sub
router conversion receives. -/
def clearedConfig : Config :=
  ⟨⟨[], [], [], [], [], [], [], [], [], [], [], [], [], [], []⟩⟩

/-- One observer step of the register_middlewares block in to_service_provider:
insert the configured outer middlewares at the first positions of the chain of
the matching observer. -/
def installOuter (configured : List OuterMiddlewareId)
    (observer : TelegramObserver) : TelegramObserver :=
  { observer with
      outer_middlewares :=
        registerFrom 0 configured observer.outer_middlewares }

mutual

/-- ToServiceProvider for Router (router.rs): install the configured outer
middlewares at the first positions of every telegram observer of this router,
clear the configured outer middlewares, then convert every sub router with the
cleared configuration. The conversion of each observer to its service form
keeps its chains and handlers (observer module, outside the provided sources),
so the service tree is represented with the same node shape. -/
def Router.to_service_provider : Router → Config → Router
  | .mk name o st sd subs, config =>
    .mk name (Observers.zipWith installOuter config.outer_middlewares o) st sd
      (to_service_provider_subs subs
        ⟨config.outer_middlewares.clear⟩)

/-- The sub router conversion loop of to_service_provider. -/
def to_service_provider_subs : List Router → Config → List Router
  | [], _ => []
  | r :: rs, config =>
    r.to_service_provider config :: to_service_provider_subs rs config

end

/-- The iterator chain of Router::resolve_used_update_types over the own
observers of a router: keep the observers with a non empty handler list, in
telegram_observers order, and convert each event name to an UpdateType; a name
that does not convert stops everything (the expect in the source panics there,
modelled by none). -/
def collectUsed : List (String × TelegramObserver) → Option (List UpdateType)
  | [] => some []
  | (name, observer) :: rest =>
    if observer.handlers.isEmpty then collectUsed rest
    else
      match eventNameToUpdateType name with
      | none => none
      | some t =>
        match collectUsed rest with
        | none => none
        | some ts => some (t :: ts)

mutual

/-- Router::resolve_used_update_types: the set of update kinds collected from
every sub router recursively and from every own observer with a non empty
handler list. The source accumulates a HashSet and returns it in unspecified
order; the set is modelled as a Finset. A handler on an observer whose name is
not an update kind makes the whole computation panic (none). -/
def Router.resolve_used_update_types : Router → Option (Finset UpdateType)
  | .mk _ o _ _ subs =>
    match resolve_used_update_types_subs subs with
    | none => none
    | some subTypes =>
      match collectUsed (observerNameList o) with
      | none => none
      | some own => some (subTypes ∪ own.toFinset)

/-- The sub router accumulation loop of Router::resolve_used_update_types. -/
def resolve_used_update_types_subs : List Router → Option (Finset UpdateType)
  | [] => some ∅
  | r :: rs =>
    match r.resolve_used_update_types with
    | none => none
    | some s1 =>
      match resolve_used_update_types_subs rs with
      | none => none
      | some s2 => some (s1 ∪ s2)

end

/-- Router::resolve_used_update_types_with_skip: collect the skip list into a
set and drop its members from the resolved update kinds. -/
def Router.resolve_used_update_types_with_skip (r : Router)
    (skip_updates : List UpdateType) : Option (Finset UpdateType) :=
  match r.resolve_used_update_types with
  | none => none
  | some s => some (s.filter (fun t => t ∉ skip_updates.toFinset))

mutual

/-- Spec characterization (section 4.5 of the spec): a router tree uses an
update kind when the router itself or some descendant has at least one
registered handler entry on the observer of that kind. Stated from the words of
the spec, to be compared with resolve_used_update_types. -/
def usesKind : Router → UpdateType → Bool
  | .mk _ o _ _ subs, t =>
    !(o.sel (selOfKind t)).handlers.isEmpty || usesKindSubs subs t

/-- Spec characterization, sub router part: some sub router uses the kind. -/
def usesKindSubs : List Router → UpdateType → Bool
  | [], _ => false
  | r :: rs, t => usesKind r t || usesKindSubs rs t

end

/-- A telegram observer with no outer middlewares whose trigger leaves every
request unhandled. -/
def trivialObs : TelegramObserverInner := ⟨[], fun _ => .ok .unhandled⟩

/-- All fifteen observer fields set to the same observer. -/
def obsAll (o : TelegramObserverInner) : Observers TelegramObserverInner :=
  ⟨o, o, o, o, o, o, o, o, o, o, o, o, o, o, o⟩

/-- A simple observer whose trigger succeeds. -/
def okSimple : SimpleObserverInner := ⟨.ok ()⟩

/-- A concrete request. -/
def rq : Request := ⟨0, 0, 0⟩

/-- Router whose update observer handles every request (result 42) and whose
message observer also handles every request (result 7). -/
def c1Router : RouterInner :=
  .mk "main"
    { obsAll trivialObs with
        message := ⟨[], fun _ => .ok (.handled 7)⟩,
        update := ⟨[], fun _ => .ok (.handled 42)⟩ }
    okSimple okSimple []

/-- Three level tree whose grandchild has a failing startup observer and a
failing shutdown observer; every other simple observer succeeds. -/
def c2Tree : RouterInner :=
  .mk "root" (obsAll trivialObs) okSimple okSimple
    [.mk "child" (obsAll trivialObs) okSimple okSimple
      [.mk "grandchild" (obsAll trivialObs) ⟨.error 7⟩ ⟨.error 8⟩ []]]

/-- Router whose own startup observer fails with error 3. -/
def c2OwnFail : RouterInner :=
  .mk "root" (obsAll trivialObs) ⟨.error 3⟩ ⟨.error 4⟩ []

/-- Router with two children: the first starts up fine, the second fails with
error 5 (and shuts down with error 6). -/
def c2ChildFail : RouterInner :=
  .mk "root" (obsAll trivialObs) okSimple okSimple
    [.mk "child1" (obsAll trivialObs) okSimple okSimple [],
     .mk "child2" (obsAll trivialObs) ⟨.error 5⟩ ⟨.error 6⟩ []]

/-- An empty builder observer. -/
def emptyTObs : TelegramObserver := ⟨[], [], []⟩

/-- All fifteen builder observer fields empty. -/
def emptyBObs : Observers TelegramObserver :=
  ⟨emptyTObs, emptyTObs, emptyTObs, emptyTObs, emptyTObs, emptyTObs, emptyTObs,
   emptyTObs, emptyTObs, emptyTObs, emptyTObs, emptyTObs, emptyTObs, emptyTObs,
   emptyTObs⟩

/-- Parent and child for the inclusion snapshot witness: the parent has inner
middleware 1 on its message observer, the child has inner middleware 2 there
and owns a grandchild with inner middleware 3 there. -/
def c3Parent : Router :=
  .mk "main"
    { emptyBObs with
        message := { emptyTObs with inner_middlewares := [1] } }
    [] [] []

/-- The grandchild router of the inclusion snapshot witness. -/
def c3Grandchild : Router :=
  .mk "subsub"
    { emptyBObs with
        message := { emptyTObs with inner_middlewares := [3] } }
    [] [] []

/-- The child router included in the inclusion snapshot witness. -/
def c3Child : Router :=
  .mk "sub"
    { emptyBObs with
        message := { emptyTObs with inner_middlewares := [2] } }
    [] [] [c3Grandchild]

/-- Parent with one (empty) child, used against the build-time configuration. -/
def c4Parent : Router :=
  .mk "main" emptyBObs [] [] [.mk "sub" emptyBObs [] [] []]

/-- Build-time configuration carrying outer middleware 5 for message
observers. -/
def c4Cfg : Config :=
  ⟨{ (⟨[], [], [], [], [], [], [], [], [], [], [], [], [], [], []⟩ :
      OuterMiddlewaresConfig) with message := [5] }⟩

/-- Router with a message handler and a sub router with a callback query
handler: the resolution example of the spec. -/
def c7Router : Router :=
  .mk "main" { emptyBObs with message := { emptyTObs with handlers := [1] } }
    [] []
    [.mk "sub"
      { emptyBObs with callback_query := { emptyTObs with handlers := [2] } }
      [] [] []]

/-- The update kind set which the spec example expects to be resolved. -/
def c7Set : Finset UpdateType := {UpdateType.callback_query, UpdateType.message}

/-- Router with a handler registered on the generic update observer. -/
def c10Router : Router :=
  .mk "main" { emptyBObs with update := { emptyTObs with handlers := [1] } }
    [] [] []

/-- Middleware that updates the request to a fixed new value and returns
Skip. -/
def skipMw : OuterMiddleware := fun _ => .ok (⟨9, 9, 9⟩, .skip)

/-- Middleware that updates the request to a fixed new value and returns
Finish. -/
def finishMw : OuterMiddleware := fun _ => .ok (⟨1, 2, 3⟩, .finish)

/-- Middleware that returns Cancel. -/
def cancelMw : OuterMiddleware := fun q => .ok (q, .cancel)

/-- Router whose update observer has an outer middleware returning Cancel and
whose message observer handles every request (result 7). -/
def c5Router : RouterInner :=
  .mk "main"
    { obsAll trivialObs with
        message := ⟨[], fun _ => .ok (.handled 7)⟩,
        update := ⟨[cancelMw], fun _ => .ok .unhandled⟩ }
    okSimple okSimple []

/-- Router whose message observer has an outer middleware returning Cancel, a
trigger that would handle every request, and a sub router that would also
handle every message. -/
def c5KindCancel : RouterInner :=
  .mk "main"
    { obsAll trivialObs with
        message := ⟨[cancelMw], fun _ => .ok (.handled 7)⟩ }
    okSimple okSimple
    [.mk "sub" { obsAll trivialObs with
        message := ⟨[], fun _ => .ok (.handled 8)⟩ }
      okSimple okSimple []]

/-- An observer whose trigger rejects every request. -/
def rejectObs : TelegramObserverInner := ⟨[], fun _ => .ok .rejected⟩

/-- A sub router that would handle every message, used to show that rejection
by an observer does not consult sub routers. -/
def c9Sub : RouterInner :=
  .mk "sub" { obsAll trivialObs with
      message := ⟨[], fun _ => .ok (.handled 11)⟩,
      update := ⟨[], fun _ => .ok (.handled 12)⟩ }
    okSimple okSimple []

/-- Router whose message observer and update observer both reject; it owns the
sub router c9Sub. -/
def c9Router : RouterInner :=
  .mk "main"
    { obsAll trivialObs with message := rejectObs, update := rejectObs }
    okSimple okSimple [c9Sub]

theorem Observers.sel_zipWith (f : α → β → γ) (a : Observers α)
    (b : Observers β) (s : TObsSel) :
    (Observers.zipWith f a b).sel s = f (a.sel s) (b.sel s) := by
  cases s <;> rfl

theorem register_at_position_at_length (pre l : List α) (m : α) :
    register_at_position (pre ++ l) pre.length m = pre ++ m :: l := by
  induction pre with
  | nil => simp [register_at_position]
  | cons x xs ih => simp [register_at_position, ih]

theorem registerFrom_append (ms : List α) : ∀ pre l : List α,
    registerFrom pre.length ms (pre ++ l) = pre ++ (ms ++ l) := by
  induction ms with
  | nil => intro pre l; simp [registerFrom]
  | cons m rest ih =>
    intro pre l
    rw [registerFrom, register_at_position_at_length]
    have h := ih (pre ++ [m]) l
    simpa using h

theorem registerFrom_zero (ms l : List α) : registerFrom 0 ms l = ms ++ l := by
  have h := registerFrom_append ms [] l
  simpa using h

theorem triggerAll_append_ok (pre rest : List SimpleObserverInner)
    (h : ∀ o ∈ pre, o.trigger = .ok ()) :
    triggerAll (pre ++ rest) = triggerAll rest := by
  induction pre with
  | nil => rfl
  | cons x xs ih =>
    have hx := h x (List.mem_cons_self x xs)
    rw [List.cons_append, triggerAll, hx]
    exact ih fun o ho => h o (List.mem_cons_of_mem x ho)

theorem propagate_update_event_eq (r : RouterInner) (request : Request) :
    r.propagate_update_event request =
      match run_outer_middlewares r.obs.update.outer_middlewares request with
      | .error e => .error e
      | .ok (.cancelled q) => .ok ⟨q, .rejected⟩
      | .ok (.finished q) =>
        propagate_update_event_by_observer r.obs.update r.sub_routers q := by
  cases r
  rfl

theorem propagate_event_eq (r : RouterInner) (update_type : UpdateType)
    (request : Request) :
    r.propagate_event update_type request =
      match r.propagate_update_event request with
      | .error e => .error e
      | .ok _ => propagate_event_kind_phase r update_type request := by
  cases r
  rfl

/-- C1 (corrected): propagate_event invokes propagate_update_event first, but
only an error from the update pass is returned immediately; an Ok update pass
has its propagation result (Handled, Rejected or Unhandled alike) discarded,
and propagate_event always continues into the kind observer phase with the
original request. -/
theorem propagate_event_discards_update_pass (r : RouterInner)
    (update_type : UpdateType) (request : Request) :
    (∀ e, r.propagate_update_event request = .error e →
      r.propagate_event update_type request = .error e) ∧
    (∀ resp, r.propagate_update_event request = .ok resp →
      r.propagate_event update_type request =
        propagate_event_kind_phase r update_type request) := by
  constructor
  · intro e h
    rw [propagate_event_eq, h]
  · intro resp h
    rw [propagate_event_eq, h]

/-- C1 counterexample: the update pass of c1Router returns Handled 42, yet
propagate_event does not return that result to the caller; it goes on to
trigger the message observer and returns Handled 7. -/
theorem propagate_event_update_pass_counterexample :
    RouterInner.propagate_update_event c1Router rq = .ok ⟨rq, .handled 42⟩ ∧
    RouterInner.propagate_event c1Router .message rq = .ok ⟨rq, .handled 7⟩ ∧
    (Except.ok ⟨rq, .handled 7⟩ : Except Err Response) ≠
      .ok ⟨rq, .handled 42⟩ := by
  refine ⟨by decide, by decide, by decide⟩

/-- Witness for C1: the amended theorem applied to c1Router, whose update pass
returns Ok with a Handled result. -/
theorem propagate_event_discards_update_pass_witness :
    RouterInner.propagate_event c1Router .message rq =
      propagate_event_kind_phase c1Router .message rq :=
  (propagate_event_discards_update_pass c1Router .message rq).2
    ⟨rq, .handled 42⟩ (by decide)

/-- C2 (corrected): emit_startup and emit_shutdown trigger the observer of the
router itself and then the observer of each direct sub router in order, and
nothing deeper: the result only depends on those observers, the first error
among them aborts the remaining emissions and is returned. -/
theorem emit_direct_children_only (r r2 : RouterInner) (e : SErr)
    (pre post : List RouterInner) (bad : RouterInner) :
    (r.startup = r2.startup →
      r.sub_routers.map RouterInner.startup =
        r2.sub_routers.map RouterInner.startup →
      r.emit_startup = r2.emit_startup) ∧
    (r.startup.trigger = .error e → r.emit_startup = .error e) ∧
    (r.startup.trigger = .ok () → r.sub_routers = pre ++ bad :: post →
      (∀ x ∈ pre, x.startup.trigger = .ok ()) →
      bad.startup.trigger = .error e → r.emit_startup = .error e) ∧
    (r.shutdown = r2.shutdown →
      r.sub_routers.map RouterInner.shutdown =
        r2.sub_routers.map RouterInner.shutdown →
      r.emit_shutdown = r2.emit_shutdown) ∧
    (r.shutdown.trigger = .error e → r.emit_shutdown = .error e) ∧
    (r.shutdown.trigger = .ok () → r.sub_routers = pre ++ bad :: post →
      (∀ x ∈ pre, x.shutdown.trigger = .ok ()) →
      bad.shutdown.trigger = .error e → r.emit_shutdown = .error e) := by
  refine ⟨?_, ?_, ?_, ?_, ?_, ?_⟩
  · intro h1 h2
    rw [RouterInner.emit_startup, RouterInner.emit_startup, h1, h2]
  · intro h
    rw [RouterInner.emit_startup, triggerAll, h]
  · intro h0 hsubs hpre hbad
    rw [RouterInner.emit_startup, triggerAll, h0, hsubs, List.map_append,
      List.map_cons]
    rw [triggerAll_append_ok]
    · rw [triggerAll, hbad]
    · intro o ho
      obtain ⟨x, hx, hxo⟩ := List.mem_map.mp ho
      rw [← hxo]
      exact hpre x hx
  · intro h1 h2
    rw [RouterInner.emit_shutdown, RouterInner.emit_shutdown, h1, h2]
  · intro h
    rw [RouterInner.emit_shutdown, triggerAll, h]
  · intro h0 hsubs hpre hbad
    rw [RouterInner.emit_shutdown, triggerAll, h0, hsubs, List.map_append,
      List.map_cons]
    rw [triggerAll_append_ok]
    · rw [triggerAll, hbad]
    · intro o ho
      obtain ⟨x, hx, hxo⟩ := List.mem_map.mp ho
      rw [← hxo]
      exact hpre x hx

/-- C2 counterexample: in c2Tree the grandchild has a startup observer failing
with error 7 and a shutdown observer failing with error 8, yet emit_startup and
emit_shutdown on the root both succeed: the grandchild observers are never
triggered, so no depth first pre order traversal of all descendants happens and
no error is returned. -/
theorem emit_startup_counterexample :
    RouterInner.emit_startup c2Tree = .ok () ∧
    RouterInner.emit_shutdown c2Tree = .ok () ∧
    c2Tree.sub_routers.map
        (fun c => c.sub_routers.map fun g => g.startup.trigger) =
      [[.error 7]] ∧
    c2Tree.sub_routers.map
        (fun c => c.sub_routers.map fun g => g.shutdown.trigger) =
      [[.error 8]] := by
  refine ⟨by decide, by decide, by decide, by decide⟩

/-- Witness for C2: the own observer failure and the direct child failure cases
of the amended theorem, applied to concrete routers. -/
theorem emit_direct_children_only_witness :
    RouterInner.emit_startup c2OwnFail = .error 3 ∧
    RouterInner.emit_shutdown c2OwnFail = .error 4 ∧
    RouterInner.emit_startup c2ChildFail = .error 5 ∧
    RouterInner.emit_shutdown c2ChildFail = .error 6 := by
  refine ⟨?_, ?_, ?_, ?_⟩
  · exact (emit_direct_children_only c2OwnFail c2OwnFail 3 [] [] c2OwnFail).2.1
      (by decide)
  · exact (emit_direct_children_only c2OwnFail c2OwnFail 4 [] []
      c2OwnFail).2.2.2.2.1 (by decide)
  · exact (emit_direct_children_only c2ChildFail c2ChildFail 5
      [.mk "child1" (obsAll trivialObs) okSimple okSimple []] []
      (.mk "child2" (obsAll trivialObs) ⟨.error 5⟩ ⟨.error 6⟩ [])).2.2.1
      (by decide) rfl (by intro x hx; fin_cases hx; decide) (by decide)
  · exact (emit_direct_children_only c2ChildFail c2ChildFail 6
      [.mk "child1" (obsAll trivialObs) okSimple okSimple []] []
      (.mk "child2" (obsAll trivialObs) ⟨.error 5⟩ ⟨.error 6⟩ [])).2.2.2.2.2
      (by decide) rfl (by intro x hx; fin_cases hx; decide) (by decide)

/-- C5 (corrected): a Cancel from an outer middleware of the kind matching
observer makes propagate_event return Rejected immediately, whatever the
observer trigger and the sub routers would do; and a Rejected response of a sub
router is returned by the sub router loop at once, with the later siblings
never evaluated. A Cancel from an outer middleware of the update observer only
rejects the update pass, whose result propagate_event discards (see the
counterexample). -/
theorem outer_cancel_rejects (r : RouterInner) (kind : UpdateType)
    (req reqc q qr : Request) (resp : Response) (pre post : List RouterInner)
    (sub : RouterInner)
    (hup : r.propagate_update_event req = .ok resp)
    (hc : run_outer_middlewares
        (r.telegram_observer_by_update_type kind).outer_middlewares req =
      .ok (.cancelled reqc)) :
    r.propagate_event kind req = .ok ⟨reqc, .rejected⟩ ∧
    ((∀ x ∈ pre, ∃ u, x.propagate_event kind q = .ok ⟨u, .unhandled⟩) →
      sub.propagate_event kind q = .ok ⟨qr, .rejected⟩ →
      propagate_event_sub_routers (pre ++ sub :: post) kind q =
        .ok ⟨qr, .rejected⟩) := by
  constructor
  · rw [propagate_event_eq, hup]
    simp only [propagate_event_kind_phase, hc]
  · intro hpre hsub
    induction pre with
    | nil =>
      rw [List.nil_append, propagate_event_sub_routers, hsub]
    | cons x xs ih =>
      obtain ⟨u, hx⟩ := hpre x (List.mem_cons_self x xs)
      rw [List.cons_append, propagate_event_sub_routers, hx]
      exact ih fun y hy => hpre y (List.mem_cons_of_mem x hy)

/-- C5 counterexample: in c5Router an outer middleware of the update observer
returns Cancel, so the update pass is Rejected, yet propagate_event does not
return Rejected: it triggers the message observer, whose handler runs and
handles the update. -/
theorem outer_cancel_rejects_counterexample :
    RouterInner.propagate_update_event c5Router rq = .ok ⟨rq, .rejected⟩ ∧
    RouterInner.propagate_event c5Router .message rq = .ok ⟨rq, .handled 7⟩ ∧
    (Except.ok ⟨rq, .handled 7⟩ : Except Err Response) ≠ .ok ⟨rq, .rejected⟩ := by
  refine ⟨by decide, by decide, by decide⟩

/-- Witness for C5: in c5KindCancel the message observer owns a Cancel outer
middleware; propagate_event returns Rejected even though both the own trigger
and the sub router would handle the message. -/
theorem outer_cancel_rejects_witness :
    RouterInner.propagate_event c5KindCancel .message rq =
      .ok ⟨rq, .rejected⟩ :=
  (outer_cancel_rejects c5KindCancel .message rq rq rq rq ⟨rq, .unhandled⟩
    [] [] c5KindCancel (by decide) (by decide)).1

/-- C6 (confirmed): in the outer middleware loop of propagate_event, a Skip
entry leaves the request unchanged (the updated request it returned is
discarded and the rest of the loop receives the previous request), while a
Finish entry replaces the request with its updated copy; the request the loop
finishes with is the one handed to the kind observer phase (trigger and sub
routers). -/
theorem outer_skip_keeps_finish_replaces (mw : OuterMiddleware)
    (rest : List OuterMiddleware) (req updated : Request) (r : RouterInner)
    (kind : UpdateType) :
    (mw req = .ok (updated, .skip) →
      run_outer_middlewares (mw :: rest) req = run_outer_middlewares rest req) ∧
    (mw req = .ok (updated, .finish) →
      run_outer_middlewares (mw :: rest) req =
        run_outer_middlewares rest updated) ∧
    (∀ resp req2, r.propagate_update_event req = .ok resp →
      run_outer_middlewares
          (r.telegram_observer_by_update_type kind).outer_middlewares req =
        .ok (.finished req2) →
      r.propagate_event kind req =
        propagate_event_by_observer (r.telegram_observer_by_update_type kind)
          r.sub_routers kind req2) := by
  refine ⟨?_, ?_, ?_⟩
  · intro h
    rw [run_outer_middlewares, h]
  · intro h
    rw [run_outer_middlewares, h]
  · intro resp req2 hup hout
    rw [propagate_event_eq, hup]
    simp only [propagate_event_kind_phase, hout]

/-- Witness for C6: a Skip middleware that rewrites the request has no effect
on the loop result, a Finish middleware rewrites it for the rest of the loop. -/
theorem outer_skip_keeps_finish_replaces_witness :
    run_outer_middlewares [skipMw] rq = .ok (.finished rq) ∧
    run_outer_middlewares [finishMw] rq = .ok (.finished ⟨1, 2, 3⟩) := by
  constructor
  · rw [(outer_skip_keeps_finish_replaces skipMw [] rq ⟨9, 9, 9⟩ c1Router
      .message).1 (by decide)]
    rfl
  · rw [(outer_skip_keeps_finish_replaces finishMw [] rq ⟨1, 2, 3⟩ c1Router
      .message).2.1 (by decide)]
    rfl

/-- C8 (confirmed): telegram_observer_by_update_type is a total function on the
fourteen update kinds; each kind is mapped to exactly one telegram observer
field (the mapping into the field selectors is injective), the generic update
observer is never selected, and there are exactly fourteen kinds. -/
theorem telegram_observer_by_update_type_total (r : RouterInner)
    (t : UpdateType) :
    r.telegram_observer_by_update_type t = r.obs.sel (selOfKind t) ∧
    Function.Injective selOfKind ∧
    selOfKind t ≠ TObsSel.update ∧
    Fintype.card UpdateType = 14 := by
  refine ⟨?_, by decide, ?_, by decide⟩
  · cases t <;> rfl
  · cases t <;> decide

/-- C9 (confirmed): a Rejected propagation result of the triggered observer is
converted by the router to an Unhandled response and the sub routers are not
consulted, both in the kind observer phase (propagate_event_by_observer) and in
the update pass (propagate_update_event_by_observer); lifted to
propagate_update_event and propagate_event, the router returns Unhandled, not
Rejected, to its caller. -/
theorem observer_rejected_is_unhandled (observer : TelegramObserverInner)
    (subs : List RouterInner) (kind : UpdateType) (req : Request)
    (r : RouterInner) (req2 req3 : Request) (resp : Response)
    (h1 : observer.trigger req = .ok .rejected) :
    propagate_event_by_observer observer subs kind req =
      .ok ⟨req, .unhandled⟩ ∧
    propagate_update_event_by_observer observer subs req =
      .ok ⟨req, .unhandled⟩ ∧
    (run_outer_middlewares r.obs.update.outer_middlewares req2 =
        .ok (.finished req3) →
      r.obs.update.trigger req3 = .ok .rejected →
      r.propagate_update_event req2 = .ok ⟨req3, .unhandled⟩) ∧
    (r.propagate_update_event req2 = .ok resp →
      run_outer_middlewares
          (r.telegram_observer_by_update_type kind).outer_middlewares req2 =
        .ok (.finished req3) →
      (r.telegram_observer_by_update_type kind).trigger req3 =
        .ok .rejected →
      r.propagate_event kind req2 = .ok ⟨req3, .unhandled⟩) := by
  refine ⟨?_, ?_, ?_, ?_⟩
  · simp only [propagate_event_by_observer, h1]
  · simp only [propagate_update_event_by_observer, h1]
  · intro hout htrig
    rw [propagate_update_event_eq, hout]
    simp only [propagate_update_event_by_observer, htrig]
  · intro hup hout htrig
    rw [propagate_event_eq, hup]
    simp only [propagate_event_kind_phase, hout, propagate_event_by_observer,
      htrig]

/-- Witness for C9: the rejecting observer of c9Router converts to Unhandled at
every level, although its sub router would have handled the message. -/
theorem observer_rejected_is_unhandled_witness :
    propagate_event_by_observer rejectObs [c9Sub] .message rq =
      .ok ⟨rq, .unhandled⟩ ∧
    RouterInner.propagate_event c9Router .message rq =
      .ok ⟨rq, .unhandled⟩ := by
  constructor
  · exact (observer_rejected_is_unhandled rejectObs [c9Sub] .message rq
      c9Router rq rq ⟨rq, .unhandled⟩ (by decide)).1
  · exact (observer_rejected_is_unhandled rejectObs [c9Sub] .message rq
      c9Router rq rq ⟨rq, .unhandled⟩ (by decide)).2.2.2
      (by decide) (by decide) (by decide)

theorem inheritInner_sel (p o : Observers TelegramObserver) (s : TObsSel) :
    ((Observers.zipWith inheritInner p o).sel s).inner_middlewares =
        ((p.sel s).inner_middlewares ++ (o.sel s).inner_middlewares) ∧
      ((Observers.zipWith inheritInner p o).sel s).handlers =
        (o.sel s).handlers ∧
      ((Observers.zipWith inheritInner p o).sel s).outer_middlewares =
        (o.sel s).outer_middlewares := by
  rw [Observers.sel_zipWith]
  exact ⟨registerFrom_zero _ _, rfl, rfl⟩

mutual

theorem rim_subAt (p : Observers TelegramObserver) (c : Router)
    (path : List Nat) :
    (register_inner_middlewares p c).subAt path =
      (c.subAt path).map (register_inner_middlewares p) := by
  match c, path with
  | c, [] =>
    cases c
    simp [Router.subAt, register_inner_middlewares]
  | .mk n o st sd subs, i :: is =>
    rw [register_inner_middlewares, Router.subAt, Router.subAt]
    exact rim_subAtList p subs i is

theorem rim_subAtList (p : Observers TelegramObserver) (rs : List Router)
    (i : Nat) (is : List Nat) :
    subAtList (register_inner_middlewares_subs p rs) i is =
      (subAtList rs i is).map (register_inner_middlewares p) := by
  match rs, i with
  | [], j =>
    simp [register_inner_middlewares_subs, subAtList]
  | r :: rs, 0 =>
    rw [register_inner_middlewares_subs, subAtList, subAtList]
    exact rim_subAt p r is
  | r :: rs, j + 1 =>
    rw [register_inner_middlewares_subs, subAtList, subAtList]
    exact rim_subAtList p rs j is

end

mutual

theorem tsp_cleared (r : Router) : r.to_service_provider clearedConfig = r := by
  match r with
  | .mk n o st sd subs =>
    show Router.mk n
        (Observers.zipWith installOuter clearedConfig.outer_middlewares o) st sd
        (to_service_provider_subs subs clearedConfig) =
      Router.mk n o st sd subs
    rw [tsp_cleared_subs subs]
    cases o
    rfl

theorem tsp_cleared_subs (rs : List Router) :
    to_service_provider_subs rs clearedConfig = rs := by
  match rs with
  | [] => rfl
  | r :: rest =>
    show r.to_service_provider clearedConfig ::
        to_service_provider_subs rest clearedConfig = r :: rest
    rw [tsp_cleared r, tsp_cleared_subs rest]

end

/-- C3 (confirmed): include_router first registers the inner middlewares of
this router in the included router and then appends it to the sub routers: the
registration copies, for every observer and for the included router and every
one of its descendants, exactly the inner middlewares the parent observer holds
at inclusion time, inserted at the front, before the locally registered ones,
leaving handlers and outer middlewares untouched; the observers of the parent
itself are unchanged, and registering an inner middleware on the parent
afterwards rewrites only the parent, not the stored children. -/
theorem include_router_snapshot (p c d : Router) (path : List Nat)
    (s : TObsSel) (m : InnerMiddlewareId) (hd : c.subAt path = some d) :
    (p.include_router c).sub_routers =
      p.sub_routers ++ [register_inner_middlewares p.obs c] ∧
    (p.include_router c).obs = p.obs ∧
    ((p.include_router c).registerInner s m).sub_routers =
      (p.include_router c).sub_routers ∧
    ∃ d2, (register_inner_middlewares p.obs c).subAt path = some d2 ∧
      (d2.obs.sel s).inner_middlewares =
        (p.obs.sel s).inner_middlewares ++ (d.obs.sel s).inner_middlewares ∧
      (d2.obs.sel s).handlers = (d.obs.sel s).handlers ∧
      (d2.obs.sel s).outer_middlewares = (d.obs.sel s).outer_middlewares := by
  refine ⟨?_, ?_, ?_, ?_⟩
  · cases p
    rfl
  · cases p
    rfl
  · cases p
    rfl
  · refine ⟨register_inner_middlewares p.obs d, ?_, ?_, ?_, ?_⟩
    · rw [rim_subAt, hd]
      rfl
    · cases d
      exact (inheritInner_sel p.obs _ s).1
    · cases d
      exact (inheritInner_sel p.obs _ s).2.1
    · cases d
      exact (inheritInner_sel p.obs _ s).2.2

/-- Witness for C3: including c3Child in c3Parent stamps inner middleware 1 of
the parent message observer in front of the chains of the child and of the
grandchild. -/
theorem include_router_snapshot_witness :
    (∃ d2,
      (register_inner_middlewares c3Parent.obs c3Child).subAt [0] = some d2 ∧
      (d2.obs.sel .message).inner_middlewares =
        (c3Parent.obs.sel .message).inner_middlewares ++
          (c3Grandchild.obs.sel .message).inner_middlewares ∧
      (d2.obs.sel .message).handlers =
        (c3Grandchild.obs.sel .message).handlers ∧
      (d2.obs.sel .message).outer_middlewares =
        (c3Grandchild.obs.sel .message).outer_middlewares) ∧
    ((c3Parent.include_router c3Child).registerInner .message 9).sub_routers =
      (c3Parent.include_router c3Child).sub_routers := by
  constructor
  · exact (include_router_snapshot c3Parent c3Child c3Grandchild [0] .message 9
      rfl).2.2.2
  · exact (include_router_snapshot c3Parent c3Child c3Grandchild [0] .message 9
      rfl).2.2.1

/-- C4 (corrected): converting a router to its service form pushes the
configured outer middlewares, in configuration order, at the front of every one
of its own fifteen observers, leaving handlers and inner middlewares untouched;
the configuration is then cleared before recursing, so every proper descendant
is converted with an empty configuration and receives none of the configured
outer middlewares (its whole subtree is unchanged). -/
theorem to_service_provider_outer_config (r : Router) (config : Config)
    (s : TObsSel) (path : List Nat) (h : path ≠ []) :
    ((r.to_service_provider config).obs.sel s).outer_middlewares =
      config.outer_middlewares.sel s ++ (r.obs.sel s).outer_middlewares ∧
    ((r.to_service_provider config).obs.sel s).handlers =
      (r.obs.sel s).handlers ∧
    ((r.to_service_provider config).obs.sel s).inner_middlewares =
      (r.obs.sel s).inner_middlewares ∧
    (r.to_service_provider config).subAt path = r.subAt path := by
  match r with
  | .mk n o st sd subs =>
    refine ⟨?_, ?_, ?_, ?_⟩
    · show ((Observers.zipWith installOuter config.outer_middlewares o).sel
          s).outer_middlewares = _
      rw [Observers.sel_zipWith]
      exact registerFrom_zero _ _
    · show ((Observers.zipWith installOuter config.outer_middlewares o).sel
          s).handlers = _
      rw [Observers.sel_zipWith]
      rfl
    · show ((Observers.zipWith installOuter config.outer_middlewares o).sel
          s).inner_middlewares = _
      rw [Observers.sel_zipWith]
      rfl
    · match path with
      | [] => exact absurd rfl h
      | i :: is =>
        show subAtList (to_service_provider_subs subs clearedConfig) i is =
          subAtList subs i is
        rw [tsp_cleared_subs]

/-- C4 counterexample: the configuration carries outer middleware 5 for message
observers; after conversion the root message observer holds it, but the sub
router message observer holds no outer middleware at all: the configured outer
middlewares are not pushed into the observers of descendants. -/
theorem to_service_provider_outer_config_counterexample :
    c4Cfg.outer_middlewares.message = [5] ∧
    ((Router.to_service_provider c4Parent c4Cfg).obs.sel
        .message).outer_middlewares = [5] ∧
    ((Router.to_service_provider c4Parent c4Cfg).subAt [0]).map
        (fun d2 => (d2.obs.sel .message).outer_middlewares) = some [] := by
  refine ⟨by decide, by decide, by decide⟩

/-- Witness for C4: the amended theorem applied to c4Parent and its
configuration at the path of the sub router. -/
theorem to_service_provider_outer_config_witness :
    ((Router.to_service_provider c4Parent c4Cfg).obs.sel
        .message).outer_middlewares =
      c4Cfg.outer_middlewares.sel .message ++
        (c4Parent.obs.sel .message).outer_middlewares ∧
    (Router.to_service_provider c4Parent c4Cfg).subAt [0] =
      c4Parent.subAt [0] := by
  constructor
  · exact (to_service_provider_outer_config c4Parent c4Cfg .message [0]
      (by decide)).1
  · exact (to_service_provider_outer_config c4Parent c4Cfg .message [0]
      (by decide)).2.2.2

theorem collectUsed_mem (L : List (String × TelegramObserver))
    (ts : List UpdateType) (h : collectUsed L = some ts) (t : UpdateType) :
    t ∈ ts ↔ ∃ x ∈ L, x.2.handlers.isEmpty = false ∧
      eventNameToUpdateType x.1 = some t := by
  induction L generalizing ts with
  | nil =>
    rw [collectUsed] at h
    cases h
    simp
  | cons x rest ih =>
    obtain ⟨name, obs⟩ := x
    rw [collectUsed] at h
    by_cases he : obs.handlers.isEmpty
    · rw [if_pos he] at h
      rw [ih ts h]
      simp only [List.mem_cons]
      constructor
      · rintro ⟨y, hy, h1, h2⟩
        exact ⟨y, Or.inr hy, h1, h2⟩
      · rintro ⟨y, (rfl | hy), h1, h2⟩
        · rw [he] at h1
          cases h1
        · exact ⟨y, hy, h1, h2⟩
    · rw [if_neg he] at h
      cases hconv : eventNameToUpdateType name with
      | none =>
        rw [hconv] at h
        cases h
      | some u =>
        rw [hconv] at h
        cases hrest : collectUsed rest with
        | none =>
          rw [hrest] at h
          cases h
        | some ts0 =>
          rw [hrest] at h
          cases h
          rw [List.mem_cons, ih ts0 hrest]
          simp only [List.mem_cons]
          constructor
          · rintro (rfl | ⟨y, hy, h1, h2⟩)
            · exact ⟨(name, obs), Or.inl rfl,
                Bool.eq_false_iff.mpr he, hconv⟩
            · exact ⟨y, Or.inr hy, h1, h2⟩
          · rintro ⟨y, (rfl | hy), h1, h2⟩
            · rw [hconv] at h2
              exact Or.inl (Option.some.inj h2).symm
            · exact Or.inr ⟨y, hy, h1, h2⟩

theorem collectUsed_none (L : List (String × TelegramObserver)) (name : String)
    (obs : TelegramObserver) (hmem : (name, obs) ∈ L)
    (hne : obs.handlers.isEmpty = false)
    (hconv : eventNameToUpdateType name = none) : collectUsed L = none := by
  induction L with
  | nil => cases hmem
  | cons x rest ih =>
    obtain ⟨n2, o2⟩ := x
    rw [collectUsed]
    rcases List.mem_cons.mp hmem with heq | hmemr
    · obtain ⟨rfl, rfl⟩ := Prod.mk.injEq .. ▸ And.intro (congrArg Prod.fst heq)
        (congrArg Prod.snd heq)
      rw [if_neg (by rw [hne]; exact Bool.false_ne_true), hconv]
    · by_cases he : o2.handlers.isEmpty
      · rw [if_pos he]
        exact ih hmemr
      · rw [if_neg he]
        cases hconv2 : eventNameToUpdateType n2 with
        | none => rfl
        | some u => rw [ih hmemr]

theorem exists_own_iff (o : Observers TelegramObserver) (t : UpdateType) :
    (∃ x ∈ observerNameList o, x.2.handlers.isEmpty = false ∧
      eventNameToUpdateType x.1 = some t) ↔
    (o.sel (selOfKind t)).handlers.isEmpty = false := by
  cases t <;>
    simp [observerNameList, eventNameToUpdateType, Observers.sel, selOfKind]

mutual

theorem mem_resolve (r : Router) (s : Finset UpdateType)
    (h : r.resolve_used_update_types = some s) (t : UpdateType) :
    t ∈ s ↔ usesKind r t = true := by
  match r with
  | .mk n o st sd subs =>
    rw [Router.resolve_used_update_types] at h
    cases hsub : resolve_used_update_types_subs subs with
    | none =>
      rw [hsub] at h
      cases h
    | some subTypes =>
      rw [hsub] at h
      cases hcol : collectUsed (observerNameList o) with
      | none =>
        rw [hcol] at h
        cases h
      | some own =>
        rw [hcol] at h
        cases h
        rw [usesKind, Finset.mem_union,
          mem_resolve_subs subs subTypes hsub t, List.mem_toFinset,
          collectUsed_mem _ own hcol t, exists_own_iff]
        simp only [Bool.or_eq_true, Bool.not_eq_true']
        exact or_comm

theorem mem_resolve_subs (rs : List Router) (s : Finset UpdateType)
    (h : resolve_used_update_types_subs rs = some s) (t : UpdateType) :
    t ∈ s ↔ usesKindSubs rs t = true := by
  match rs with
  | [] =>
    rw [resolve_used_update_types_subs] at h
    cases h
    simp [usesKindSubs]
  | r :: rest =>
    rw [resolve_used_update_types_subs] at h
    cases h1 : r.resolve_used_update_types with
    | none =>
      rw [h1] at h
      cases h
    | some s1 =>
      rw [h1] at h
      cases h2 : resolve_used_update_types_subs rest with
      | none =>
        rw [h2] at h
        cases h
      | some s2 =>
        rw [h2] at h
        cases h
        rw [usesKindSubs, Finset.mem_union, mem_resolve r s1 h1 t,
          mem_resolve_subs rest s2 h2 t]
        simp [Bool.or_eq_true]

end

/-- C7 (confirmed): when resolve_used_update_types succeeds, it returns exactly
the set of update kinds for which the router or some descendant has at least
one registered handler entry (observers with an empty handler list are
ignored); resolve_used_update_types_with_skip returns that same set minus the
excluded kinds. -/
theorem resolve_used_update_types_correct (r : Router) (s : Finset UpdateType)
    (skip_updates : List UpdateType)
    (h : r.resolve_used_update_types = some s) :
    (∀ t, t ∈ s ↔ usesKind r t = true) ∧
    r.resolve_used_update_types_with_skip skip_updates =
      some (s \ skip_updates.toFinset) := by
  constructor
  · exact fun t => mem_resolve r s h t
  · rw [Router.resolve_used_update_types_with_skip, h]
    show some (s.filter fun t => t ∉ skip_updates.toFinset) = _
    rw [Finset.sdiff_eq_filter]

/-- Witness for C7: the resolution example of the spec; a message handler on
the router and a callback query handler on its sub router resolve to the set
with exactly those two kinds, and skipping message leaves callback query. -/
theorem resolve_used_update_types_correct_witness :
    (UpdateType.message ∈ c7Set ↔ usesKind c7Router .message = true) ∧
    (UpdateType.callback_query ∈ c7Set ↔
      usesKind c7Router .callback_query = true) ∧
    Router.resolve_used_update_types_with_skip c7Router [UpdateType.message] =
      some (c7Set \ [UpdateType.message].toFinset) := by
  have hmain := resolve_used_update_types_correct c7Router c7Set
    [UpdateType.message] rfl
  exact ⟨hmain.1 .message, hmain.1 .callback_query, hmain.2⟩

/-- C10 (confirmed): resolve_used_update_types folds over an observer list that
includes the generic update observer, whose event name does not convert to an
update kind; hence a handler registered on the update observer makes the
conversion fail, which is the panic of the expect in the source, modelled as
none. -/
theorem resolve_panics_on_update_handlers (r : Router)
    (h : r.obs.update.handlers ≠ []) :
    r.resolve_used_update_types = none ∧
    ("update", r.obs.update) ∈ observerNameList r.obs ∧
    eventNameToUpdateType "update" = none := by
  match r with
  | .mk n o st sd subs =>
    refine ⟨?_, ?_, by decide⟩
    · rw [Router.resolve_used_update_types]
      cases hsub : resolve_used_update_types_subs subs with
      | none => rfl
      | some subTypes =>
        have hcol : collectUsed (observerNameList o) = none := by
          refine collectUsed_none _ "update" o.update ?_ ?_ (by decide)
          · simp [observerNameList]
          · have h2 : o.update.handlers ≠ [] := h
            cases hval : o.update.handlers.isEmpty with
            | false => rfl
            | true => exact absurd (List.isEmpty_iff.mp hval) h2
        rw [hcol]
    · simp [observerNameList]

/-- Witness for C10: a single router with one handler on its generic update
observer; the resolution panics (none). -/
theorem resolve_panics_on_update_handlers_witness :
    Router.resolve_used_update_types c10Router = none :=
  (resolve_panics_on_update_handlers c10Router (by decide)).1
